import Mathlib

set_option maxRecDepth 40000

/-!
Verification of the consult-readiness rule engine of this repository.

The repository contains two parallel Streamlit decision-support pipelines:
the burn pathway (`src/app.py`) and the appendicitis pathway
(`src/pages/2_Appendicitis_Consult.py`).  Each pathway has a readiness
evaluator, a scope classifier, a recommendation-tier function and a
message composer, all pure functions over a flat input record.  This file
embeds those functions and proves / refutes the specification claims.

Modelling conventions:
* Python checkbox values are `Option Bool` (`some true` / `some false` /
  `none` for `None`-or-absent); the code only ever tests `is True`, which
  becomes `= some true`.
* Python `round(x, 1)` on the exact value is modelled as round-half-even
  of `10 * x` over `ℚ`, divided by 10 (binary floating-point representation
  error is ignored; no claim proved here depends on it).
* Python `/` raises `ZeroDivisionError` on a zero denominator; the bare
  percentage expression is modelled by the `Option`-valued `readinessPct`.
  Inside the two readiness functions the required list is a hard-coded
  non-empty literal, so there the division is total.
-/

/-- Round-half-even of a rational to an integer (Python's `round(x)` on the
exact value). -/
def roundHalfEven (q : ℚ) : ℤ :=
  if q - ⌊q⌋ < 1/2 then ⌊q⌋
  else if 1/2 < q - ⌊q⌋ then ⌊q⌋ + 1
  else if ⌊q⌋ % 2 = 0 then ⌊q⌋ else ⌊q⌋ + 1

/-- Python's `round(x, 1)` on the exact rational value. -/
def pyRound1 (q : ℚ) : ℚ := (roundHalfEven (q * 10) : ℚ) / 10

/-- The percentage expression `round(len(done) / len(required) * 100, 1)`
written in both readiness functions (`src/app.py` line 92,
`src/pages/2_Appendicitis_Consult.py` line 45).  Python `/` raises
`ZeroDivisionError` when `required` is empty; that failure is `none`. -/
def readinessPct (done required : Nat) : Option ℚ :=
  if required = 0 then none
  else some (pyRound1 ((done : ℚ) / (required : ℚ) * 100))

/-- `"; ".join(l)`. -/
def joinSemis : List String → String
  | [] => ""
  | [s] => s
  | s :: b :: t => s ++ ("; " ++ joinSemis (b :: t))

/-- `"\n".join(l)`. -/
def joinNewlines : List String → String
  | [] => ""
  | [s] => s
  | s :: b :: t => s ++ ("\n" ++ joinNewlines (b :: t))

/-- Python `str.strip()`: drop leading and trailing whitespace. -/
def pyStrip (s : String) : String :=
  ⟨((s.data.dropWhile Char.isWhitespace).reverse.dropWhile Char.isWhitespace).reverse⟩

/-- `pat.data` occurs inside `s.data`: the message `s` contains the text
`pat`. -/
def strContains (s pat : String) : Prop := pat.data <:+: s.data

/-- Decimal digit string to `Nat` (no validity check; used after
`Char.isDigit` tests). -/
def natOfDigits (l : List Char) : Nat :=
  l.foldl (fun n c => n * 10 + (c.toNat - 48)) 0

/-- Split a character list at every `'.'`. -/
def splitOnDot (l : List Char) : List (List Char) :=
  l.foldr
    (fun c acc =>
      if c == '.' then [] :: acc
      else
        match acc with
        | [] => [[c]]
        | h :: t => (c :: h) :: t)
    [[]]

/-- Python `float(s)` on the plain decimal literals this application can
produce (`"12.5"`, `"-3"`, `"7."`, `".5"`, with surrounding whitespace).
Exotic accepted forms (exponents, `inf`, `nan`, underscores) never occur in
the app's own structured fields and are modelled as parse failure, which the
caller's `try/except` turns into `False`. -/
def parsePyFloat (s : String) : Option ℚ :=
  let t := ((s.data.dropWhile Char.isWhitespace).reverse.dropWhile Char.isWhitespace).reverse
  let sb : ℚ × List Char :=
    match t with
    | '-' :: rest => (-1, rest)
    | '+' :: rest => (1, rest)
    | _ => (1, t)
  match splitOnDot sb.2 with
  | [ip] =>
      if ip ≠ [] ∧ ip.all Char.isDigit then some (sb.1 * (natOfDigits ip : ℚ))
      else none
  | [ip, fp] =>
      if (ip ≠ [] ∨ fp ≠ []) ∧ ip.all Char.isDigit ∧ fp.all Char.isDigit then
        some (sb.1 * ((natOfDigits ip : ℚ) + (natOfDigits fp : ℚ) / (10 ^ fp.length)))
      else none
  | _ => none

/-- The `details` mapping (label → non-empty string), insertion-ordered. -/
abbrev Details := List (String × String)

/-- `details.get(label, "")`. -/
def detailsGet (d : Details) (label : String) : String :=
  match d.find? (fun p => p.1 == label) with
  | some p => p.2
  | none => ""

/-! ## Burn pathway (`src/app.py`) -/

/-- The main checkbox keys of the burn form (`CHECKLIST` dict keys,
`src/app.py` lines 6–22). -/
inductive BKey
  | mechanism_documented
  | time_of_injury
  | morphology_burn_consistent
  | depth_estimated
  | tbsa_estimated
  | location_high_risk_checked
  | circumferential_checked
  | chemical_agent_known_if_chemical
  | electrical_voltage_known_if_electrical
  | inhalation_risk_assessed
  | inhalation_risk_present
  | vitals_reviewed
  | comorbidities_reviewed
  | consult_question_defined
  | severe_skin_failure_flag
deriving DecidableEq, Fintype

/-- The `CHECKLIST` label dictionary (`src/app.py` lines 6–22); every key is
present, so every lookup yields `some`. -/
def CHECKLIST : BKey → Option String
  | .mechanism_documented => some "Mechanism documented"
  | .time_of_injury => some "Time of injury documented"
  | .morphology_burn_consistent => some "Morphology consistent with burn"
  | .depth_estimated => some "Depth estimated"
  | .tbsa_estimated => some "TBSA estimated"
  | .location_high_risk_checked => some "High-risk areas assessed"
  | .circumferential_checked => some "Circumferential involvement assessed"
  | .chemical_agent_known_if_chemical => some "If chemical: agent identified + decontamination documented"
  | .electrical_voltage_known_if_electrical => some "If electrical: voltage/LOC/ECG documented"
  | .inhalation_risk_assessed => some "Inhalation risk assessed"
  | .inhalation_risk_present => some "Inhalation risk PRESENT"
  | .vitals_reviewed => some "Vitals reviewed / instability assessed"
  | .comorbidities_reviewed => some "Major comorbidities reviewed"
  | .consult_question_defined => some "Consult question defined (what do you want Burn to do?)"
  | .severe_skin_failure_flag => some "Severe skin failure suspected (e.g., SJS/TEN pattern)"

/-- The label of a burn checkbox key (`CHECKLIST[k]`). -/
def burnLabel (k : BKey) : String := (CHECKLIST k).getD ""

/-- The burn input record: the `inputs` dict built by the form
(`src/app.py` lines 188–467).  Checkbox values are booleans; the two
mechanism-conditional fields are set to `None` when inapplicable. -/
structure BurnInputs where
  mechanism_type : String
  mechanism_documented : Option Bool
  time_of_injury : Option Bool
  morphology_burn_consistent : Option Bool
  depth_estimated : Option Bool
  tbsa_estimated : Option Bool
  location_high_risk_checked : Option Bool
  circumferential_checked : Option Bool
  chemical_agent_known_if_chemical : Option Bool
  electrical_voltage_known_if_electrical : Option Bool
  inhalation_risk_assessed : Option Bool
  inhalation_risk_present : Option Bool
  vitals_reviewed : Option Bool
  comorbidities_reviewed : Option Bool
  consult_question_defined : Option Bool
  severe_skin_failure_flag : Option Bool

/-- `inputs.get(key)` for the burn record. -/
def BurnInputs.get (i : BurnInputs) : BKey → Option Bool
  | .mechanism_documented => i.mechanism_documented
  | .time_of_injury => i.time_of_injury
  | .morphology_burn_consistent => i.morphology_burn_consistent
  | .depth_estimated => i.depth_estimated
  | .tbsa_estimated => i.tbsa_estimated
  | .location_high_risk_checked => i.location_high_risk_checked
  | .circumferential_checked => i.circumferential_checked
  | .chemical_agent_known_if_chemical => i.chemical_agent_known_if_chemical
  | .electrical_voltage_known_if_electrical => i.electrical_voltage_known_if_electrical
  | .inhalation_risk_assessed => i.inhalation_risk_assessed
  | .inhalation_risk_present => i.inhalation_risk_present
  | .vitals_reviewed => i.vitals_reviewed
  | .comorbidities_reviewed => i.comorbidities_reviewed
  | .consult_question_defined => i.consult_question_defined
  | .severe_skin_failure_flag => i.severe_skin_failure_flag

/-- The `required_keys` list of `burn_consult_readiness_v2`
(`src/app.py` lines 68–86): twelve core keys, then the chemical and
electrical conditional keys when the mechanism type matches. -/
def burnRequiredKeys (mech_type : String) : List BKey :=
  [.mechanism_documented, .time_of_injury, .morphology_burn_consistent,
   .depth_estimated, .tbsa_estimated, .location_high_risk_checked,
   .circumferential_checked, .vitals_reviewed, .comorbidities_reviewed,
   .consult_question_defined, .inhalation_risk_assessed, .inhalation_risk_present]
  ++ (if mech_type = "chemical" then [.chemical_agent_known_if_chemical] else [])
  ++ (if mech_type = "electrical" then [.electrical_voltage_known_if_electrical] else [])

/-- Result of `burn_consult_readiness_v2`. -/
structure Readiness where
  completeness_pct : ℚ
  missing_items : List String
deriving DecidableEq

/-- `burn_consult_readiness_v2` (`src/app.py` lines 65–94).  `done` are the
required keys whose value `is True`, `missing` the rest;
`completeness_pct = round(len(done) / len(required_keys) * 100, 1)` — the
required list is a non-empty literal, so the division cannot raise (the bare
expression's failure mode is `readinessPct`);
`missing_items = [CHECKLIST[k] for k in missing if k in CHECKLIST]`. -/
def burn_consult_readiness_v2 (inputs : BurnInputs) : Readiness :=
  let required_keys := burnRequiredKeys inputs.mechanism_type
  let done := required_keys.filter fun k => decide (inputs.get k = some true)
  let missing := required_keys.filter fun k => !decide (inputs.get k = some true)
  { completeness_pct := pyRound1 ((done.length : ℚ) / (required_keys.length : ℚ) * 100)
    missing_items := missing.filterMap CHECKLIST }

/-- `scope_triage_v2` (`src/app.py` lines 99–113): returns
(scope, rationale). -/
def scope_triage_v2 (inputs : BurnInputs) : String × String :=
  let mech := inputs.get .mechanism_documented = some true
  let morph := inputs.get .morphology_burn_consistent = some true
  let chemical := inputs.get .chemical_agent_known_if_chemical = some true
  let electrical := inputs.get .electrical_voltage_known_if_electrical = some true
  let inhalation := inputs.get .inhalation_risk_present = some true
  if mech ∧ morph then ("WITHIN SCOPE", "Burn-consistent mechanism and morphology.")
  else if chemical ∨ electrical ∨ inhalation then
    ("WITHIN SCOPE", "Special burn mechanism present.")
  else if ¬ mech ∨ ¬ morph then
    ("OUTSIDE OF SCOPE", "Mechanism or morphology not consistent with burn.")
  else ("UNCERTAIN", "Insufficient data to confirm burn scope.")

/-- `recommendation_tier_v2` (`src/app.py` lines 118–135). -/
def recommendation_tier_v2 (inputs : BurnInputs) (completeness : ℚ) (scope : String) :
    String :=
  let high_risk := inputs.get .location_high_risk_checked = some true
  let special :=
    inputs.get .chemical_agent_known_if_chemical = some true
    ∨ inputs.get .electrical_voltage_known_if_electrical = some true
    ∨ inputs.get .inhalation_risk_present = some true
  if scope = "OUTSIDE OF SCOPE" then "CONSIDER ALTERNATE SERVICE"
  else if scope = "WITHIN SCOPE" ∧ (special ∨ high_risk) then "CONSULT NOW"
  else if scope = "WITHIN SCOPE" then
    if completeness ≥ 70 then "STRONGLY RECOMMEND BURN SURGERY CONSULT"
    else "LOW RECOMMENDATION FOR BURN SURGERY CONSULT"
  else "CONSIDER ALTERNATE SERVICE"

/-- `generate_message_v5` (`src/app.py` lines 140–168).
`missing_short = "; ".join(missing[:4]) if missing else ""`. -/
def generate_message_v5 (inputs : BurnInputs) (scope why : String)
    (missing : List String) : String :=
  let missing_short := if missing = [] then "" else joinSemis (missing.take 4)
  let severe_skin := inputs.get .severe_skin_failure_flag = some true
  if scope = "OUTSIDE OF SCOPE" then
    let msg :=
      if severe_skin then
        why ++ " The presentation suggests a severe non-burn skin process. Recommend urgent multidisciplinary evaluation per local protocol. Escalate appropriately. Burn Surgery can be re-consulted if burn features emerge."
      else
        why ++ " Burn Surgery involvement is not clearly indicated at this time. Recommend evaluation by an alternate appropriate service per local protocol. Re-consult Burn Surgery if burn-consistent features develop."
    if missing_short = "" then msg
    else msg ++ (" Missing elements: " ++ (missing_short ++ "."))
  else
    let msg :=
      "Recommend Burn Surgery consultation to assist with depth/TBSA assessment and determine need for burn-center evaluation or transfer. Rationale: " ++ why
    if missing_short = "" then msg
    else msg ++ (" Missing elements being obtained: " ++ (missing_short ++ "."))

/-- `inferred_burn_evidence` (`src/app.py` lines 42–60): structured details
imply burn features (a definite depth level, TBSA > 0, or non-blank
morphology text). -/
def inferred_burn_evidence (details : Details) : Bool :=
  let depth := detailsGet details "Depth (structured)"
  let depth_implies :=
    ["Superficial", "Superficial partial", "Deep partial", "Full thickness"].contains depth
  let tbsa_text := detailsGet details "TBSA % (structured)"
  let tbsa_implies :=
    match parsePyFloat (pyStrip ⟨tbsa_text.data.filter (fun c => !(c == '%'))⟩) with
    | some q => decide (0 < q)
    | none => false
  let morph_struct := detailsGet details "Morphology (structured)"
  let morph_implies := !(pyStrip morph_struct == "")
  depth_implies || tbsa_implies || morph_implies

/-- The "contradiction patch" of the burn page (`src/app.py` lines 476–479):
a logic-only copy of `inputs` in which `morphology_burn_consistent` is forced
to `True` when the structured details imply burn evidence but the checkbox is
not truthy (`inputs.get("morphology_burn_consistent", False)` falsy). -/
def inputs_for_logic (inputs : BurnInputs) (details : Details) : BurnInputs :=
  if inferred_burn_evidence details && !(inputs.morphology_burn_consistent.getD false) then
    { inputs with morphology_burn_consistent := some true }
  else inputs

/-- The burn output bundle computed on the right-hand pane. -/
structure BurnOutput where
  r : Readiness
  scope : String
  why : String
  tier : String
  msg : String

/-- The burn evaluation pipeline (`src/app.py` lines 473–483): readiness from
the raw inputs, then scope, tier and message from the patched logic copy
(message still uses the raw missing list). -/
def burnPipeline (inputs : BurnInputs) (details : Details) : BurnOutput :=
  let r := burn_consult_readiness_v2 inputs
  let logic := inputs_for_logic inputs details
  let sw := scope_triage_v2 logic
  { r := r
    scope := sw.1
    why := sw.2
    tier := recommendation_tier_v2 logic r.completeness_pct sw.1
    msg := generate_message_v5 logic sw.1 sw.2 r.missing_items }

/-! ## Appendicitis pathway (`src/pages/2_Appendicitis_Consult.py`) -/

/-- The eight required documentation keys of `compute_readiness`
(`src/pages/2_Appendicitis_Consult.py` lines 32–41), in declaration order. -/
inductive AKey
  | vitals_reviewed
  | pain_location_documented
  | pain_duration_documented
  | exam_documented
  | cbc_reviewed
  | pregnancy_addressed
  | imaging_addressed
  | consult_question_defined
deriving DecidableEq, Fintype

/-- The `labels` dictionary of `compute_readiness` (lines 47–56). -/
def appLabels : AKey → String
  | .vitals_reviewed => "Vitals reviewed / stability assessed"
  | .pain_location_documented => "Pain location documented (incl. migration)"
  | .pain_duration_documented => "Duration / timeline documented"
  | .exam_documented => "Focused abdominal exam documented"
  | .cbc_reviewed => "CBC/WBC addressed"
  | .pregnancy_addressed => "Pregnancy status addressed (if applicable)"
  | .imaging_addressed => "Imaging plan/result addressed"
  | .consult_question_defined => "Consult question defined"

/-- The `required` list of `compute_readiness` (lines 32–41). -/
def appRequired : List AKey :=
  [.vitals_reviewed, .pain_location_documented, .pain_duration_documented,
   .exam_documented, .cbc_reviewed, .pregnancy_addressed, .imaging_addressed,
   .consult_question_defined]

/-- The appendicitis input record (`inputs` dict of the page). -/
structure AppInputs where
  clinical_suspicion : Option String
  hemodynamic_instability : Option Bool
  peritonitis : Option Bool
  sepsis_concern : Option Bool
  imaging_impression : Option String
  complicated_features : Option Bool
  vitals_reviewed : Option Bool
  pain_location_documented : Option Bool
  pain_duration_documented : Option Bool
  exam_documented : Option Bool
  cbc_reviewed : Option Bool
  pregnancy_addressed : Option Bool
  imaging_addressed : Option Bool
  consult_question_defined : Option Bool

/-- `inputs.get(key)` for the eight required documentation keys. -/
def AppInputs.get (i : AppInputs) : AKey → Option Bool
  | .vitals_reviewed => i.vitals_reviewed
  | .pain_location_documented => i.pain_location_documented
  | .pain_duration_documented => i.pain_duration_documented
  | .exam_documented => i.exam_documented
  | .cbc_reviewed => i.cbc_reviewed
  | .pregnancy_addressed => i.pregnancy_addressed
  | .imaging_addressed => i.imaging_addressed
  | .consult_question_defined => i.consult_question_defined

/-- `compute_readiness` (lines 27–57): returns
`(round(len(done)/len(required) * 100, 1), [labels[m] for m in missing])`.
The required list is a non-empty literal, so the division cannot raise. -/
def compute_readiness (inputs : AppInputs) : ℚ × List String :=
  let required := appRequired
  let done := required.filter fun k => decide (inputs.get k = some true)
  let missing := required.filter fun k => !decide (inputs.get k = some true)
  (pyRound1 ((done.length : ℚ) / (required.length : ℚ) * 100), missing.map appLabels)

/-- `triage_scope` (lines 59–77): red flags first, then the clinical
suspicion enum (`inputs.get("clinical_suspicion", "Uncertain")`). -/
def triage_scope (inputs : AppInputs) : String × String :=
  let unstable := inputs.hemodynamic_instability = some true
  let peritonitis := inputs.peritonitis = some true
  let sepsis := inputs.sepsis_concern = some true
  let imaging_confirmed := inputs.imaging_impression = some "Confirmed appendicitis"
  let complicated := inputs.complicated_features = some true
  if unstable ∨ peritonitis ∨ sepsis ∨ imaging_confirmed ∨ complicated then
    ("HIGH RISK", "Red flags present (instability/peritonitis/sepsis/confirmed or complicated appendicitis).")
  else
    let suspicion := inputs.clinical_suspicion.getD "Uncertain"
    if suspicion = "High" ∨ suspicion = "Moderate" then
      ("LIKELY", "Clinical picture reasonably consistent with appendicitis.")
    else if suspicion = "Low" then
      ("UNLIKELY", "Clinical picture less consistent with appendicitis.")
    else ("UNCERTAIN", "Insufficient data to estimate likelihood.")

/-- `recommendation_tier` (lines 79–91). -/
def recommendation_tier (inputs : AppInputs) (readiness_pct : ℚ) (scope : String) :
    String :=
  if scope = "HIGH RISK" then "CONSULT NOW"
  else
    let suspicion := inputs.clinical_suspicion.getD "Uncertain"
    if suspicion = "High" then "STRONGLY RECOMMEND GEN SURG CONSULT"
    else if suspicion = "Moderate" then
      if readiness_pct ≥ 60 then "RECOMMEND GEN SURG CONSULT"
      else "LOW RECOMMENDATION (GET KEY INFO FIRST)"
    else if suspicion = "Low" then "CONSIDER ALTERNATE SERVICE / OBSERVE"
    else "CONSIDER ALTERNATE SERVICE / GET MORE DATA"

/-- `build_message` (lines 93–103).
`missing_short = "; ".join(missing[:6]) if missing else ""`. -/
def build_message (details : Details) (tier why : String) (missing : List String) :
    String :=
  let lines := (details.filter fun p => !(pyStrip p.2 == "")).map
    fun p => "- " ++ p.1 ++ (": " ++ p.2)
  let key_block := pyStrip (joinNewlines lines)
  let missing_short := if missing = [] then "" else joinSemis (missing.take 6)
  let msg := "Recommend: " ++ tier ++ (". Rationale: " ++ why)
  let msg := if key_block = "" then msg else msg ++ ("\n\nKey details:\n" ++ key_block)
  if missing_short = "" then msg
  else msg ++ ("\n\nMissing items to make consult higher-yield: " ++ (missing_short ++ "."))

/-- The appendicitis output bundle. -/
structure AppOutput where
  pct : ℚ
  missing : List String
  scope : String
  why : String
  tier : String
  msg : String

/-- The appendicitis evaluation pipeline (lines 444–447). -/
def appPipeline (inputs : AppInputs) (details : Details) : AppOutput :=
  let rm := compute_readiness inputs
  let sw := triage_scope inputs
  let tier := recommendation_tier inputs rm.1 sw.1
  { pct := rm.1
    missing := rm.2
    scope := sw.1
    why := sw.2
    tier := tier
    msg := build_message details tier sw.2 rm.2 }

/-- All-`none` burn record (thermal mechanism), base for concrete inputs. -/
def burnNone : BurnInputs :=
  ⟨"thermal", none, none, none, none, none, none, none, none, none, none, none,
   none, none, none, none⟩

/-- All-`none` appendicitis record, base for concrete inputs. -/
def appNone : AppInputs :=
  ⟨none, none, none, none, none, none, none, none, none, none, none, none, none, none⟩

/-- The all-true burn record (thermal mechanism). -/
def burnAllTrue : BurnInputs :=
  ⟨"thermal", some true, some true, some true, some true, some true, some true,
   some true, some true, some true, some true, some true, some true, some true,
   some true, some true⟩

/-- The appendicitis record with all eight required checkboxes true. -/
def appAllTrue : AppInputs :=
  ⟨none, none, none, none, none, none, some true, some true, some true, some true,
   some true, some true, some true, some true⟩

example : (scope_triage_v2 burnNone).1 = "OUTSIDE OF SCOPE" := by decide
example : (burn_consult_readiness_v2 burnNone).completeness_pct = 0 := by
  with_unfolding_all decide
example : (compute_readiness appNone).1 = 0 := by with_unfolding_all decide
example : (triage_scope { appNone with peritonitis := some true }).1 = "HIGH RISK" := by
  decide
example : pyRound1 ((5 : ℚ) / 12 * 100) = 417/10 := by with_unfolding_all decide
example : inferred_burn_evidence [("Depth (structured)", "Deep partial")] = true := by
  decide
example : inferred_burn_evidence [("TBSA % (structured)", "12.5%")] = true := by
  with_unfolding_all decide
example : inferred_burn_evidence [("TBSA % (structured)", "0.0%")] = false := by
  with_unfolding_all decide

/-! ## Helper lemmas -/

instance strContainsDecidable (s pat : String) : Decidable (strContains s pat) :=
  inferInstanceAs (Decidable (pat.data <:+: s.data))

lemma string_eq_empty_of_data (s : String) (h : s.data = []) : s = "" := by
  cases s with
  | mk d => cases h; rfl

lemma length_filter_not_add {α} (p : α → Bool) (l : List α) :
    (l.filter fun a => !(p a)).length + (l.filter p).length = l.length := by
  induction l with
  | nil => rfl
  | cons h t ih => by_cases hp : p h <;> simp [List.filter_cons, hp] <;> omega

lemma filter_length_eq_iff {α} (p : α → Bool) (l : List α) :
    (l.filter p).length = l.length ↔ ∀ a ∈ l, p a = true := by
  constructor
  · intro h
    exact List.filter_eq_self.mp ((List.filter_sublist l).eq_of_length h)
  · intro h
    rw [List.filter_eq_self.mpr h]

lemma count_map_filter_eq_one {α β} [DecidableEq α] [DecidableEq β] (f : α → β)
    (hf : Function.Injective f) (p : α → Bool) (l : List α) (hl : l.Nodup)
    (a : α) (ha : a ∈ l) (hp : p a = true) :
    ((l.filter p).map f).count (f a) = 1 := by
  rw [List.count_map_of_injective _ f hf]
  exact List.count_eq_one_of_mem (hl.filter p) (List.mem_filter.mpr ⟨ha, hp⟩)

lemma mem_map_filter_iff {α β} (f : α → β) (hf : Function.Injective f)
    (p : α → Bool) (l : List α) (a : α) (ha : a ∈ l) :
    f a ∈ (l.filter p).map f ↔ p a = true := by
  constructor
  · intro h
    obtain ⟨b, hb, hba⟩ := List.mem_map.mp h
    obtain ⟨hbl, hbp⟩ := List.mem_filter.mp hb
    exact (hf hba) ▸ hbp
  · intro hp
    exact List.mem_map.mpr ⟨a, List.mem_filter.mpr ⟨ha, hp⟩, rfl⟩

lemma joinSemis_ne_empty : ∀ (l : List String), l ≠ [] → (∀ s ∈ l, s ≠ "") →
    joinSemis l ≠ ""
  | [], h, _ => absurd rfl h
  | [s], _, h1 => by simpa using h1 s (by simp)
  | s :: b :: t, _, h1 => by
    intro h
    simp only [joinSemis] at h
    have hd : s.data ++ ("; " ++ joinSemis (b :: t)).data = ([] : List Char) :=
      String.data_append s _ ▸ congrArg String.data h
    exact h1 s (by simp) (string_eq_empty_of_data s (List.append_eq_nil.mp hd).1)

lemma take_succ_ne_nil {α} (l : List α) (h : l ≠ []) (n : Nat) : l.take (n + 1) ≠ [] := by
  cases l with
  | nil => exact absurd rfl h
  | cons a t => simp [List.take]

lemma contains_of_tagged (core tag rest pat : String) (h : pat.data <:+: tag.data) :
    strContains (core ++ (tag ++ rest)) pat := by
  obtain ⟨u, v, huv⟩ := h
  refine ⟨core.data ++ u, v ++ rest.data, ?_⟩
  rw [String.data_append, String.data_append, ← huv]
  simp [List.append_assoc]

lemma suffix_of_append (core sent : String) : sent.data <:+ (core ++ sent).data := by
  rw [String.data_append]
  exact List.suffix_append core.data sent.data

lemma CHECKLIST_eq (k : BKey) : CHECKLIST k = some (burnLabel k) := by
  cases k <;> rfl

lemma filterMap_CHECKLIST (l : List BKey) : l.filterMap CHECKLIST = l.map burnLabel := by
  induction l with
  | nil => rfl
  | cons h t ih => simp [List.filterMap_cons, CHECKLIST_eq, ih]

lemma burnLabel_injective : Function.Injective burnLabel := by decide

lemma burnLabel_ne_empty (k : BKey) : burnLabel k ≠ "" := by
  revert k
  decide

lemma appLabels_injective : Function.Injective appLabels := by decide

lemma appLabels_ne_empty (k : AKey) : appLabels k ≠ "" := by
  revert k
  decide

lemma burnRequired_len_nodup (m : String) :
    ((burnRequiredKeys m).length = 12 ∨ (burnRequiredKeys m).length = 13) ∧
      (burnRequiredKeys m).Nodup := by
  unfold burnRequiredKeys
  by_cases h1 : m = "chemical" <;> by_cases h2 : m = "electrical"
  · exact absurd (h1.symm.trans h2) (by decide)
  · rw [if_pos h1, if_neg h2]
    exact ⟨Or.inr (by decide), by decide⟩
  · rw [if_neg h1, if_pos h2]
    exact ⟨Or.inr (by decide), by decide⟩
  · rw [if_neg h1, if_neg h2]
    exact ⟨Or.inl (by decide), by decide⟩

lemma pctFacts (n : Nat) (hn : n = 8 ∨ n = 12 ∨ n = 13) (d : Nat) (hd : d ≤ n) :
    0 ≤ pyRound1 ((d : ℚ) / (n : ℚ) * 100) ∧ pyRound1 ((d : ℚ) / (n : ℚ) * 100) ≤ 100 ∧
      (pyRound1 ((d : ℚ) / (n : ℚ) * 100) = 100 ↔ d = n) := by
  rcases hn with h | h | h <;> subst h <;> interval_cases d <;> with_unfolding_all decide

lemma scopeCasesB (bi : BurnInputs) :
    scope_triage_v2 bi = ("WITHIN SCOPE", "Burn-consistent mechanism and morphology.") ∨
    scope_triage_v2 bi = ("WITHIN SCOPE", "Special burn mechanism present.") ∨
    scope_triage_v2 bi =
      ("OUTSIDE OF SCOPE", "Mechanism or morphology not consistent with burn.") := by
  simp only [scope_triage_v2]
  split_ifs with h1 h2 h3
  · exact Or.inl rfl
  · exact Or.inr (Or.inl rfl)
  · exact Or.inr (Or.inr rfl)
  · tauto

/-! ## Claims -/

/-- Claim C10: the burn scope classifier `scope_triage_v2` only ever returns
`WITHIN SCOPE` or `OUTSIDE OF SCOPE`; its `UNCERTAIN` branch is dead code,
because whenever `mechanism_documented` and `morphology_burn_consistent` are
not both exactly `True`, at least one of them fails the strict-true test and
the outside-of-scope rule fires first. -/
theorem C10_burn_scope_never_uncertain (bi : BurnInputs) :
    ((scope_triage_v2 bi).1 = "WITHIN SCOPE" ∨ (scope_triage_v2 bi).1 = "OUTSIDE OF SCOPE") ∧
      (scope_triage_v2 bi).1 ≠ "UNCERTAIN" := by
  rcases scopeCasesB bi with h | h | h <;> rw [h]
  · exact ⟨Or.inl rfl, by decide⟩
  · exact ⟨Or.inl rfl, by decide⟩
  · exact ⟨Or.inr rfl, by decide⟩

/-- Claim C1: a special/high-risk flag that is exactly boolean `True`
dominates falsity of the primary consistency flags: the burn classifier still
returns `WITHIN SCOPE` (never `OUTSIDE OF SCOPE`) and the appendicitis
classifier still returns `HIGH RISK` (never `UNLIKELY`). -/
theorem C1_special_flag_dominates :
    (∀ bi : BurnInputs,
      (bi.get .chemical_agent_known_if_chemical = some true ∨
       bi.get .electrical_voltage_known_if_electrical = some true ∨
       bi.get .inhalation_risk_present = some true) →
      bi.get .mechanism_documented ≠ some true →
      bi.get .morphology_burn_consistent ≠ some true →
      (scope_triage_v2 bi).1 = "WITHIN SCOPE" ∧ (scope_triage_v2 bi).1 ≠ "OUTSIDE OF SCOPE") ∧
    (∀ ai : AppInputs,
      (ai.hemodynamic_instability = some true ∨ ai.peritonitis = some true ∨
       ai.sepsis_concern = some true ∨ ai.imaging_impression = some "Confirmed appendicitis" ∨
       ai.complicated_features = some true) →
      (ai.clinical_suspicion.getD "Uncertain" = "Low" ∨
       ai.clinical_suspicion.getD "Uncertain" = "Uncertain") →
      (triage_scope ai).1 = "HIGH RISK" ∧ (triage_scope ai).1 ≠ "UNLIKELY") := by
  constructor
  · intro bi hspec hmech _hmorph
    have h1 : ¬ (bi.get .mechanism_documented = some true ∧
        bi.get .morphology_burn_consistent = some true) := fun h => hmech h.1
    simp only [scope_triage_v2]
    rw [if_neg h1, if_pos hspec]
    exact ⟨rfl, by decide⟩
  · intro ai hflag _hsusp
    simp only [triage_scope]
    rw [if_pos hflag]
    exact ⟨rfl, by decide⟩

/-- Witness for C1 at concrete inputs: an inhalation-positive burn case with
both primary flags unset, and a peritonitis-positive appendicitis case with
suspicion `Low`. -/
theorem C1_special_flag_dominates_witness :
    ((scope_triage_v2 { burnNone with inhalation_risk_present := some true }).1 =
        "WITHIN SCOPE" ∧
      (scope_triage_v2 { burnNone with inhalation_risk_present := some true }).1 ≠
        "OUTSIDE OF SCOPE") ∧
    ((triage_scope { appNone with
        clinical_suspicion := some "Low"
        peritonitis := some true }).1 = "HIGH RISK" ∧
      (triage_scope { appNone with
        clinical_suspicion := some "Low"
        peritonitis := some true }).1 ≠ "UNLIKELY") :=
  ⟨C1_special_flag_dominates.1 _ (by decide) (by decide) (by decide),
   C1_special_flag_dominates.2 _ (by decide) (by decide)⟩

/-- Counterexample to claim C3: in the burn classifier the primary
mechanism-and-morphology rule is evaluated BEFORE the special-mechanism rule,
so an input whose special flag (`inhalation_risk_present`) is exactly `True`
while mechanism and morphology are also both `True` gets the rationale of the
primary rule, not the one naming the special trigger. -/
theorem C3_counterexample :
    ({ burnNone with
        mechanism_documented := some true
        morphology_burn_consistent := some true
        inhalation_risk_present := some true } : BurnInputs).get
      .inhalation_risk_present = some true ∧
    scope_triage_v2 { burnNone with
        mechanism_documented := some true
        morphology_burn_consistent := some true
        inhalation_risk_present := some true } =
      ("WITHIN SCOPE", "Burn-consistent mechanism and morphology.") ∧
    ("Burn-consistent mechanism and morphology." : String) ≠
      "Special burn mechanism present." := by
  decide

/-- Amended C3: the appendicitis classifier does evaluate its high-risk rule
first, so a true high-risk flag always yields the red-flag rationale; the burn
classifier evaluates the mechanism-and-morphology rule first, so its rationale
names the special trigger only when the two primary flags are not both exactly
`True` (when they are, the primary rationale is returned; the scope is
`WITHIN SCOPE` either way). -/
theorem C3_amended :
    (∀ ai : AppInputs,
      (ai.hemodynamic_instability = some true ∨ ai.peritonitis = some true ∨
       ai.sepsis_concern = some true ∨ ai.imaging_impression = some "Confirmed appendicitis" ∨
       ai.complicated_features = some true) →
      triage_scope ai = ("HIGH RISK",
        "Red flags present (instability/peritonitis/sepsis/confirmed or complicated appendicitis).")) ∧
    (∀ bi : BurnInputs,
      (bi.get .chemical_agent_known_if_chemical = some true ∨
       bi.get .electrical_voltage_known_if_electrical = some true ∨
       bi.get .inhalation_risk_present = some true) →
      ¬ (bi.get .mechanism_documented = some true ∧
         bi.get .morphology_burn_consistent = some true) →
      scope_triage_v2 bi = ("WITHIN SCOPE", "Special burn mechanism present.")) ∧
    (∀ bi : BurnInputs,
      bi.get .mechanism_documented = some true →
      bi.get .morphology_burn_consistent = some true →
      scope_triage_v2 bi = ("WITHIN SCOPE", "Burn-consistent mechanism and morphology.")) := by
  refine ⟨?_, ?_, ?_⟩
  · intro ai h
    simp only [triage_scope]
    rw [if_pos h]
  · intro bi hs h1
    simp only [scope_triage_v2]
    rw [if_neg h1, if_pos hs]
  · intro bi hm hmo
    simp only [scope_triage_v2]
    rw [if_pos ⟨hm, hmo⟩]

/-- Witness for C3_amended at concrete inputs. -/
theorem C3_amended_witness :
    triage_scope { appNone with sepsis_concern := some true } = ("HIGH RISK",
      "Red flags present (instability/peritonitis/sepsis/confirmed or complicated appendicitis).") ∧
    scope_triage_v2 { burnNone with chemical_agent_known_if_chemical := some true } =
      ("WITHIN SCOPE", "Special burn mechanism present.") ∧
    scope_triage_v2 { burnNone with
        mechanism_documented := some true
        morphology_burn_consistent := some true } =
      ("WITHIN SCOPE", "Burn-consistent mechanism and morphology.") :=
  ⟨C3_amended.1 _ (by decide), C3_amended.2.1 _ (by decide) (by decide),
   C3_amended.2.2 _ (by decide) (by decide)⟩

/-- Counterexample to claim C4: the burn recommendation engine returns
`CONSULT NOW` only when the scope string is exactly `WITHIN SCOPE`; for the
scope value `UNCERTAIN` (explicitly included in the claim) it falls through to
`CONSIDER ALTERNATE SERVICE` even though the anatomically-high-risk-location
flag is exactly `True`. -/
theorem C4_counterexample :
    ({ burnNone with location_high_risk_checked := some true } : BurnInputs).get
      .location_high_risk_checked = some true ∧
    ("UNCERTAIN" : String) ≠ "OUTSIDE OF SCOPE" ∧
    recommendation_tier_v2 { burnNone with location_high_risk_checked := some true }
      50 "UNCERTAIN" = "CONSIDER ALTERNATE SERVICE" ∧
    ("CONSIDER ALTERNATE SERVICE" : String) ≠ "CONSULT NOW" := by
  with_unfolding_all decide

/-- Amended C4: in the burn engine, `CONSULT NOW` is returned whenever the
scope is exactly `WITHIN SCOPE` and a special flag or the high-risk-location
flag is exactly `True` (for any other non-outside scope value, including
`UNCERTAIN`, the engine falls through to `CONSIDER ALTERNATE SERVICE`); in
the appendicitis engine the tier is `CONSULT NOW` exactly when the scope is
`HIGH RISK`. -/
theorem C4_amended :
    (∀ (bi : BurnInputs) (pct : ℚ),
      (bi.get .chemical_agent_known_if_chemical = some true ∨
       bi.get .electrical_voltage_known_if_electrical = some true ∨
       bi.get .inhalation_risk_present = some true ∨
       bi.get .location_high_risk_checked = some true) →
      recommendation_tier_v2 bi pct "WITHIN SCOPE" = "CONSULT NOW") ∧
    (∀ (bi : BurnInputs) (pct : ℚ) (scope : String),
      scope ≠ "OUTSIDE OF SCOPE" → scope ≠ "WITHIN SCOPE" →
      recommendation_tier_v2 bi pct scope = "CONSIDER ALTERNATE SERVICE") ∧
    (∀ (ai : AppInputs) (pct : ℚ) (scope : String),
      recommendation_tier ai pct scope = "CONSULT NOW" ↔ scope = "HIGH RISK") := by
  refine ⟨?_, ?_, ?_⟩
  · intro bi pct h
    rcases h with h | h | h | h <;> simp [recommendation_tier_v2, h]
  · intro bi pct scope h1 h2
    simp only [recommendation_tier_v2]
    rw [if_neg h1, if_neg (fun hc => h2 hc.1), if_neg h2]
  · intro ai pct scope
    constructor
    · intro h
      by_contra hs
      simp only [recommendation_tier] at h
      rw [if_neg hs] at h
      split_ifs at h <;> exact absurd h (by decide)
    · intro h
      subst h
      simp [recommendation_tier]

/-- Witness for C4_amended at concrete inputs: an electrical-flag record with
scope `WITHIN SCOPE` gets `CONSULT NOW`, a location-flag record with scope
`UNCERTAIN` falls through to `CONSIDER ALTERNATE SERVICE`, and the
appendicitis engine at scope `HIGH RISK`. -/
theorem C4_amended_witness :
    recommendation_tier_v2 { burnNone with electrical_voltage_known_if_electrical := some true }
      0 "WITHIN SCOPE" = "CONSULT NOW" ∧
    recommendation_tier_v2 { burnNone with location_high_risk_checked := some true }
      50 "UNCERTAIN" = "CONSIDER ALTERNATE SERVICE" ∧
    (recommendation_tier appNone 0 "HIGH RISK" = "CONSULT NOW" ↔
      ("HIGH RISK" : String) = "HIGH RISK") :=
  ⟨C4_amended.1 _ 0 (by decide),
   C4_amended.2.1 _ 50 "UNCERTAIN" (by decide) (by decide),
   C4_amended.2.2 appNone 0 "HIGH RISK"⟩

/-- Counterexample to claim C2: an appendicitis record with clinical
suspicion `High`, no high-risk flag and readiness 0.0 classifies as `LIKELY`,
yet the tier is `STRONGLY RECOMMEND GEN SURG CONSULT` (not the
`LOW RECOMMENDATION` tier) although the readiness percentage is below the
60-percent threshold: the high-suspicion branch ignores readiness. -/
theorem C2_counterexample :
    (triage_scope { appNone with clinical_suspicion := some "High" }).1 = "LIKELY" ∧
    ({ appNone with clinical_suspicion := some "High" } : AppInputs).hemodynamic_instability
      ≠ some true ∧
    ({ appNone with clinical_suspicion := some "High" } : AppInputs).peritonitis
      ≠ some true ∧
    ({ appNone with clinical_suspicion := some "High" } : AppInputs).sepsis_concern
      ≠ some true ∧
    ({ appNone with clinical_suspicion := some "High" } : AppInputs).imaging_impression
      ≠ some "Confirmed appendicitis" ∧
    ({ appNone with clinical_suspicion := some "High" } : AppInputs).complicated_features
      ≠ some true ∧
    (compute_readiness { appNone with clinical_suspicion := some "High" }).1 = 0 ∧
    recommendation_tier { appNone with clinical_suspicion := some "High" }
      (compute_readiness { appNone with clinical_suspicion := some "High" }).1
      (triage_scope { appNone with clinical_suspicion := some "High" }).1 =
        "STRONGLY RECOMMEND GEN SURG CONSULT" ∧
    ¬ ((recommendation_tier { appNone with clinical_suspicion := some "High" }
        (compute_readiness { appNone with clinical_suspicion := some "High" }).1
        (triage_scope { appNone with clinical_suspicion := some "High" }).1 =
          "STRONGLY RECOMMEND GEN SURG CONSULT") ↔
      60 ≤ (compute_readiness { appNone with clinical_suspicion := some "High" }).1) ∧
    recommendation_tier { appNone with clinical_suspicion := some "High" }
      (compute_readiness { appNone with clinical_suspicion := some "High" }).1
      (triage_scope { appNone with clinical_suspicion := some "High" }).1 ≠
        "LOW RECOMMENDATION (GET KEY INFO FIRST)" := by
  with_unfolding_all decide

/-- Amended C2: the burn engine behaves as claimed (strong tier iff readiness
at least 70, otherwise the low tier) when scope is `WITHIN SCOPE` and no
special or high-risk-location flag is exactly `True`; in the appendicitis
engine, with scope `LIKELY`, suspicion `High` yields the strong tier
regardless of readiness, and only suspicion `Moderate` applies the
60-percent threshold (`RECOMMEND` iff readiness at least 60, otherwise the
`LOW RECOMMENDATION` tier). -/
theorem C2_amended :
    (∀ (bi : BurnInputs) (pct : ℚ),
      bi.get .chemical_agent_known_if_chemical ≠ some true →
      bi.get .electrical_voltage_known_if_electrical ≠ some true →
      bi.get .inhalation_risk_present ≠ some true →
      bi.get .location_high_risk_checked ≠ some true →
      ((recommendation_tier_v2 bi pct "WITHIN SCOPE" =
          "STRONGLY RECOMMEND BURN SURGERY CONSULT" ↔ 70 ≤ pct) ∧
        (¬ 70 ≤ pct → recommendation_tier_v2 bi pct "WITHIN SCOPE" =
          "LOW RECOMMENDATION FOR BURN SURGERY CONSULT"))) ∧
    (∀ (ai : AppInputs) (pct : ℚ),
      (ai.clinical_suspicion.getD "Uncertain" = "High" →
        recommendation_tier ai pct "LIKELY" = "STRONGLY RECOMMEND GEN SURG CONSULT") ∧
      (ai.clinical_suspicion.getD "Uncertain" = "Moderate" →
        ((recommendation_tier ai pct "LIKELY" = "RECOMMEND GEN SURG CONSULT" ↔ 60 ≤ pct) ∧
          (¬ 60 ≤ pct → recommendation_tier ai pct "LIKELY" =
            "LOW RECOMMENDATION (GET KEY INFO FIRST)")))) := by
  constructor
  · intro bi pct h1 h2 h3 h4
    have hno : ¬ ((bi.get BKey.chemical_agent_known_if_chemical = some true ∨
        bi.get BKey.electrical_voltage_known_if_electrical = some true ∨
        bi.get BKey.inhalation_risk_present = some true) ∨
        bi.get BKey.location_high_risk_checked = some true) := by tauto
    simp only [recommendation_tier_v2, true_and]
    rw [if_neg hno, if_pos trivial]
    constructor
    · constructor
      · intro h
        by_contra h70
        rw [if_neg h70] at h
        revert h
        decide
      · intro h70
        rw [if_pos h70]
        decide
    · intro h70
      rw [if_neg h70]
      decide
  · intro ai pct
    constructor
    · intro hH
      simp only [recommendation_tier]
      rw [if_neg (by decide : ¬ ("LIKELY" : String) = "HIGH RISK"), if_pos hH]
    · intro hM
      have hnH : ¬ ai.clinical_suspicion.getD "Uncertain" = "High" := by
        rw [hM]
        decide
      simp only [recommendation_tier]
      rw [if_neg (by decide : ¬ ("LIKELY" : String) = "HIGH RISK"), if_neg hnH, if_pos hM]
      constructor
      · constructor
        · intro h
          by_contra h60
          rw [if_neg h60] at h
          exact absurd h (by decide)
        · intro h60
          rw [if_pos h60]
      · intro h60
        rw [if_neg h60]

/-- Witness for C2_amended at concrete inputs: a clean burn record at exactly
the 70-percent threshold gets the strong tier, and a `Moderate`-suspicion
appendicitis record below 60 percent gets the low tier. -/
theorem C2_amended_witness :
    recommendation_tier_v2 burnNone 70 "WITHIN SCOPE" =
      "STRONGLY RECOMMEND BURN SURGERY CONSULT" ∧
    recommendation_tier { appNone with clinical_suspicion := some "Moderate" } 59 "LIKELY" =
      "LOW RECOMMENDATION (GET KEY INFO FIRST)" :=
  ⟨(C2_amended.1 burnNone 70 (by decide) (by decide) (by decide) (by decide)).1.mpr
      (by with_unfolding_all decide),
   ((C2_amended.2 { appNone with clinical_suspicion := some "Moderate" } 59).2
      (by decide)).2 (by with_unfolding_all decide)⟩

/-- Claim C5: on both pathways the readiness percentage lies in `[0, 100]`,
and it equals exactly 100 iff every field of the active required set (core
fields plus the mechanism-conditional fields) is exactly boolean `True`. -/
theorem C5_readiness_bounds :
    (∀ bi : BurnInputs,
      0 ≤ (burn_consult_readiness_v2 bi).completeness_pct ∧
      (burn_consult_readiness_v2 bi).completeness_pct ≤ 100 ∧
      ((burn_consult_readiness_v2 bi).completeness_pct = 100 ↔
        ∀ k ∈ burnRequiredKeys bi.mechanism_type, bi.get k = some true)) ∧
    (∀ ai : AppInputs,
      0 ≤ (compute_readiness ai).1 ∧ (compute_readiness ai).1 ≤ 100 ∧
      ((compute_readiness ai).1 = 100 ↔ ∀ k ∈ appRequired, ai.get k = some true)) := by
  constructor
  · intro bi
    obtain ⟨hlen, -⟩ := burnRequired_len_nodup bi.mechanism_type
    have hd : ((burnRequiredKeys bi.mechanism_type).filter
        (fun k => decide (bi.get k = some true))).length ≤
        (burnRequiredKeys bi.mechanism_type).length := List.length_filter_le _ _
    have main := pctFacts _ (Or.inr hlen) _ hd
    have hiff : (((burnRequiredKeys bi.mechanism_type).filter
        (fun k => decide (bi.get k = some true))).length =
        (burnRequiredKeys bi.mechanism_type).length) ↔
        (∀ k ∈ burnRequiredKeys bi.mechanism_type, bi.get k = some true) := by
      rw [filter_length_eq_iff]
      simp
    exact ⟨main.1, main.2.1, main.2.2.trans hiff⟩
  · intro ai
    have hd : (appRequired.filter (fun k => decide (ai.get k = some true))).length ≤
        appRequired.length := List.length_filter_le _ _
    have main := pctFacts _ (Or.inl (by decide)) _ hd
    have hiff : ((appRequired.filter (fun k => decide (ai.get k = some true))).length =
        appRequired.length) ↔ (∀ k ∈ appRequired, ai.get k = some true) := by
      rw [filter_length_eq_iff]
      simp
    exact ⟨main.1, main.2.1, main.2.2.trans hiff⟩

/-- Witness for C5: fully documented records reach exactly 100 percent. -/
theorem C5_readiness_bounds_witness :
    (burn_consult_readiness_v2 burnAllTrue).completeness_pct = 100 ∧
    (compute_readiness appAllTrue).1 = 100 :=
  ⟨(C5_readiness_bounds.1 burnAllTrue).2.2.mpr (by decide),
   (C5_readiness_bounds.2 appAllTrue).2.2.mpr (by decide)⟩

/-- Claim C6: on both pathways the missing-labels list is exactly the labels
of the required-but-not-exactly-true fields — its length is the number of
required fields minus the number of done fields, it is a sublist of the
labels of the required list in declaration order, and for each required key
the key's label appears (exactly once) iff the key's value is not exactly
`True`. -/
theorem C6_missing_list :
    (∀ bi : BurnInputs,
      (burn_consult_readiness_v2 bi).missing_items.length =
        (burnRequiredKeys bi.mechanism_type).length -
        ((burnRequiredKeys bi.mechanism_type).filter
          (fun k => decide (bi.get k = some true))).length ∧
      List.Sublist (burn_consult_readiness_v2 bi).missing_items
        ((burnRequiredKeys bi.mechanism_type).map burnLabel) ∧
      (∀ k ∈ burnRequiredKeys bi.mechanism_type,
        (bi.get k ≠ some true →
          burnLabel k ∈ (burn_consult_readiness_v2 bi).missing_items ∧
          (burn_consult_readiness_v2 bi).missing_items.count (burnLabel k) = 1) ∧
        (bi.get k = some true →
          burnLabel k ∉ (burn_consult_readiness_v2 bi).missing_items))) ∧
    (∀ ai : AppInputs,
      (compute_readiness ai).2.length = appRequired.length -
        (appRequired.filter (fun k => decide (ai.get k = some true))).length ∧
      List.Sublist (compute_readiness ai).2 (appRequired.map appLabels) ∧
      (∀ k ∈ appRequired,
        (ai.get k ≠ some true →
          appLabels k ∈ (compute_readiness ai).2 ∧
          (compute_readiness ai).2.count (appLabels k) = 1) ∧
        (ai.get k = some true → appLabels k ∉ (compute_readiness ai).2))) := by
  constructor
  · intro bi
    obtain ⟨-, hnd⟩ := burnRequired_len_nodup bi.mechanism_type
    have hmi : (burn_consult_readiness_v2 bi).missing_items =
        ((burnRequiredKeys bi.mechanism_type).filter
          (fun k => !decide (bi.get k = some true))).map burnLabel :=
      filterMap_CHECKLIST _
    refine ⟨?_, ?_, ?_⟩
    · rw [hmi, List.length_map]
      have := length_filter_not_add (fun k => decide (bi.get k = some true))
        (burnRequiredKeys bi.mechanism_type)
      omega
    · rw [hmi]
      exact List.Sublist.map burnLabel (List.filter_sublist _)
    · intro k hk
      constructor
      · intro hne
        have hq : (!decide (bi.get k = some true)) = true := by simp [hne]
        rw [hmi]
        exact ⟨(mem_map_filter_iff burnLabel burnLabel_injective _ _ k hk).mpr hq,
          count_map_filter_eq_one burnLabel burnLabel_injective _ _ hnd k hk hq⟩
      · intro heq hmem
        rw [hmi] at hmem
        have := (mem_map_filter_iff burnLabel burnLabel_injective _ _ k hk).mp hmem
        simp [heq] at this
  · intro ai
    have hnd : appRequired.Nodup := by decide
    refine ⟨?_, ?_, ?_⟩
    · rw [show (compute_readiness ai).2 = (appRequired.filter
          (fun k => !decide (ai.get k = some true))).map appLabels from rfl,
        List.length_map]
      have := length_filter_not_add (fun k => decide (ai.get k = some true)) appRequired
      omega
    · exact List.Sublist.map appLabels (List.filter_sublist _)
    · intro k hk
      constructor
      · intro hne
        have hq : (!decide (ai.get k = some true)) = true := by simp [hne]
        exact ⟨(mem_map_filter_iff appLabels appLabels_injective _ _ k hk).mpr hq,
          count_map_filter_eq_one appLabels appLabels_injective _ _ hnd k hk hq⟩
      · intro heq hmem
        have := (mem_map_filter_iff appLabels appLabels_injective _ _ k hk).mp hmem
        simp [heq] at this

/-- Witness for C6: on the empty records, the morphology label is missing
exactly once on the burn side and the CBC label is missing on the
appendicitis side. -/
theorem C6_missing_list_witness :
    burnLabel .morphology_burn_consistent ∈
      (burn_consult_readiness_v2 burnNone).missing_items ∧
    (burn_consult_readiness_v2 burnNone).missing_items.count
      (burnLabel .morphology_burn_consistent) = 1 ∧
    appLabels .cbc_reviewed ∈ (compute_readiness appNone).2 := by
  have hb := ((C6_missing_list.1 burnNone).2.2 .morphology_burn_consistent
    (by decide)).1 (by decide)
  have ha := ((C6_missing_list.2 appNone).2.2 .cbc_reviewed (by decide)).1 (by decide)
  exact ⟨hb.1, hb.2, ha.1⟩

/-- Counterexample to claim C7: the percentage expression as written in both
readiness functions has no empty-set guard — applied to an empty required
set it raises `ZeroDivisionError` (modelled `none`) instead of defining the
percentage as 0.0. -/
theorem C7_counterexample : readinessPct 0 0 = none ∧ readinessPct 0 0 ≠ some 0 := by
  decide

/-- Amended C7: the readiness evaluation never raises for any input, but only
because both hard-coded required lists are non-empty (12–13 fields for burn,
8 for appendicitis); the unguarded division `readinessPct` therefore always
yields `some`, equal to the percentage the evaluators return.  No `0.0`
fallback for an empty required set exists in the code. -/
theorem C7_amended :
    (∀ bi : BurnInputs,
      readinessPct ((burnRequiredKeys bi.mechanism_type).filter
          (fun k => decide (bi.get k = some true))).length
        (burnRequiredKeys bi.mechanism_type).length =
        some (burn_consult_readiness_v2 bi).completeness_pct) ∧
    (∀ ai : AppInputs,
      readinessPct (appRequired.filter (fun k => decide (ai.get k = some true))).length
        appRequired.length = some (compute_readiness ai).1) := by
  constructor
  · intro bi
    obtain ⟨hlen, -⟩ := burnRequired_len_nodup bi.mechanism_type
    have hne : (burnRequiredKeys bi.mechanism_type).length ≠ 0 := by omega
    simp only [readinessPct, if_neg hne]
    rfl
  · intro ai
    have hne : appRequired.length ≠ 0 := by decide
    simp only [readinessPct, if_neg hne]
    rfl

/-- Claim C9: in the burn pipeline, when the structured details imply burn
evidence while the morphology checkbox is not `True`, the inferred override
patches `morphology_burn_consistent` to `True` only in the logic copy used by
the scope, tier and message computations; the readiness output (percentage
and missing list) is computed from the raw inputs, so the morphology item
still appears in the missing list even while the scope rationale cites a
burn-consistent presentation (whenever mechanism is documented). -/
theorem C9_patch_only_for_logic (bi : BurnInputs) (details : Details)
    (hev : inferred_burn_evidence details = true)
    (hmorph : bi.morphology_burn_consistent ≠ some true) :
    (burnPipeline bi details).r = burn_consult_readiness_v2 bi ∧
    burnLabel .morphology_burn_consistent ∈ (burnPipeline bi details).r.missing_items ∧
    (burnPipeline bi details).scope =
      (scope_triage_v2 { bi with morphology_burn_consistent := some true }).1 ∧
    (burnPipeline bi details).why =
      (scope_triage_v2 { bi with morphology_burn_consistent := some true }).2 ∧
    (burnPipeline bi details).tier =
      recommendation_tier_v2 { bi with morphology_burn_consistent := some true }
        (burn_consult_readiness_v2 bi).completeness_pct
        (scope_triage_v2 { bi with morphology_burn_consistent := some true }).1 ∧
    (burnPipeline bi details).msg =
      generate_message_v5 { bi with morphology_burn_consistent := some true }
        (scope_triage_v2 { bi with morphology_burn_consistent := some true }).1
        (scope_triage_v2 { bi with morphology_burn_consistent := some true }).2
        (burn_consult_readiness_v2 bi).missing_items ∧
    (bi.mechanism_documented = some true →
      (burnPipeline bi details).scope = "WITHIN SCOPE" ∧
      (burnPipeline bi details).why = "Burn-consistent mechanism and morphology.") := by
  have hgetd : bi.morphology_burn_consistent.getD false = false := by
    rcases h : bi.morphology_burn_consistent with _ | b
    · rfl
    · cases b
      · rfl
      · exact absurd h hmorph
  have hlogic : inputs_for_logic bi details =
      { bi with morphology_burn_consistent := some true } := by
    simp [inputs_for_logic, hev, hgetd]
  refine ⟨rfl, ?_, ?_, ?_, ?_, ?_, ?_⟩
  · have hk : BKey.morphology_burn_consistent ∈ burnRequiredKeys bi.mechanism_type := by
      unfold burnRequiredKeys
      exact List.mem_append.mpr (Or.inl (List.mem_append.mpr (Or.inl (by decide))))
    have hq : (!decide (bi.get BKey.morphology_burn_consistent = some true)) = true := by
      simp [show bi.get BKey.morphology_burn_consistent = bi.morphology_burn_consistent
        from rfl, hmorph]
    have hmi : (burn_consult_readiness_v2 bi).missing_items =
        ((burnRequiredKeys bi.mechanism_type).filter
          (fun k => !decide (bi.get k = some true))).map burnLabel :=
      filterMap_CHECKLIST _
    show burnLabel _ ∈ (burn_consult_readiness_v2 bi).missing_items
    rw [hmi]
    exact (mem_map_filter_iff burnLabel burnLabel_injective _ _ _ hk).mpr hq
  · show (scope_triage_v2 (inputs_for_logic bi details)).1 = _
    rw [hlogic]
  · show (scope_triage_v2 (inputs_for_logic bi details)).2 = _
    rw [hlogic]
  · show recommendation_tier_v2 (inputs_for_logic bi details)
      (burn_consult_readiness_v2 bi).completeness_pct
      (scope_triage_v2 (inputs_for_logic bi details)).1 = _
    rw [hlogic]
  · show generate_message_v5 (inputs_for_logic bi details)
      (scope_triage_v2 (inputs_for_logic bi details)).1
      (scope_triage_v2 (inputs_for_logic bi details)).2
      (burn_consult_readiness_v2 bi).missing_items = _
    rw [hlogic]
  · intro hmech
    have h1 : ({ bi with morphology_burn_consistent := some true } : BurnInputs).get
        .mechanism_documented = some true := hmech
    have h2 : ({ bi with morphology_burn_consistent := some true } : BurnInputs).get
        .morphology_burn_consistent = some true := rfl
    have hsc : scope_triage_v2 { bi with morphology_burn_consistent := some true } =
        ("WITHIN SCOPE", "Burn-consistent mechanism and morphology.") := by
      simp only [scope_triage_v2]
      rw [if_pos ⟨h1, h2⟩]
    constructor
    · show (scope_triage_v2 (inputs_for_logic bi details)).1 = _
      rw [hlogic, hsc]
    · show (scope_triage_v2 (inputs_for_logic bi details)).2 = _
      rw [hlogic, hsc]

/-- Witness for C9 at a concrete input: mechanism documented, morphology
unchecked, structured depth `Deep partial` — the scope cites a
burn-consistent presentation while the morphology label is still missing. -/
theorem C9_patch_only_for_logic_witness :
    burnLabel .morphology_burn_consistent ∈
      (burnPipeline { burnNone with mechanism_documented := some true }
        [("Depth (structured)", "Deep partial")]).r.missing_items ∧
    (burnPipeline { burnNone with mechanism_documented := some true }
        [("Depth (structured)", "Deep partial")]).scope = "WITHIN SCOPE" ∧
    (burnPipeline { burnNone with mechanism_documented := some true }
        [("Depth (structured)", "Deep partial")]).why =
      "Burn-consistent mechanism and morphology." := by
  have h := C9_patch_only_for_logic { burnNone with mechanism_documented := some true }
    [("Depth (structured)", "Deep partial")] (by decide) (by decide)
  exact ⟨h.2.1, (h.2.2.2.2.2.2 rfl).1, (h.2.2.2.2.2.2 rfl).2⟩

lemma scopeCasesB2 (bi : BurnInputs) :
    ((scope_triage_v2 bi).1 = "WITHIN SCOPE" ∧
      ((scope_triage_v2 bi).2 = "Burn-consistent mechanism and morphology." ∨
       (scope_triage_v2 bi).2 = "Special burn mechanism present.")) ∨
    ((scope_triage_v2 bi).1 = "OUTSIDE OF SCOPE" ∧
      (scope_triage_v2 bi).2 = "Mechanism or morphology not consistent with burn.") := by
  rcases scopeCasesB bi with h | h | h <;> rw [h] <;> simp

lemma appScopeCases (ai : AppInputs) :
    triage_scope ai = ("HIGH RISK",
      "Red flags present (instability/peritonitis/sepsis/confirmed or complicated appendicitis).") ∨
    triage_scope ai = ("LIKELY", "Clinical picture reasonably consistent with appendicitis.") ∨
    triage_scope ai = ("UNLIKELY", "Clinical picture less consistent with appendicitis.") ∨
    triage_scope ai = ("UNCERTAIN", "Insufficient data to estimate likelihood.") := by
  simp only [triage_scope]
  split_ifs <;> tauto

lemma appScopeCases2 (ai : AppInputs) :
    (triage_scope ai).2 =
      "Red flags present (instability/peritonitis/sepsis/confirmed or complicated appendicitis)." ∨
    (triage_scope ai).2 = "Clinical picture reasonably consistent with appendicitis." ∨
    (triage_scope ai).2 = "Clinical picture less consistent with appendicitis." ∨
    (triage_scope ai).2 = "Insufficient data to estimate likelihood." := by
  rcases appScopeCases ai with h | h | h | h <;> rw [h] <;> simp

lemma appTierCases (ai : AppInputs) (pct : ℚ) (scope : String) :
    recommendation_tier ai pct scope = "CONSULT NOW" ∨
    recommendation_tier ai pct scope = "STRONGLY RECOMMEND GEN SURG CONSULT" ∨
    recommendation_tier ai pct scope = "RECOMMEND GEN SURG CONSULT" ∨
    recommendation_tier ai pct scope = "LOW RECOMMENDATION (GET KEY INFO FIRST)" ∨
    recommendation_tier ai pct scope = "CONSIDER ALTERNATE SERVICE / OBSERVE" ∨
    recommendation_tier ai pct scope = "CONSIDER ALTERNATE SERVICE / GET MORE DATA" := by
  simp only [recommendation_tier]
  split_ifs <;> tauto

lemma gm5_nil_eq (inputs : BurnInputs) (scope why : String) :
    generate_message_v5 inputs scope why [] =
      if scope = "OUTSIDE OF SCOPE" then
        (if inputs.get BKey.severe_skin_failure_flag = some true then
          why ++ " The presentation suggests a severe non-burn skin process. Recommend urgent multidisciplinary evaluation per local protocol. Escalate appropriately. Burn Surgery can be re-consulted if burn features emerge."
        else
          why ++ " Burn Surgery involvement is not clearly indicated at this time. Recommend evaluation by an alternate appropriate service per local protocol. Re-consult Burn Surgery if burn-consistent features develop.")
      else
        "Recommend Burn Surgery consultation to assist with depth/TBSA assessment and determine need for burn-center evaluation or transfer. Rationale: " ++ why :=
  rfl

lemma gm5_cons_eq (inputs : BurnInputs) (scope why : String) (missing : List String)
    (hne : missing ≠ []) (hje : joinSemis (missing.take 4) ≠ "") :
    generate_message_v5 inputs scope why missing =
      if scope = "OUTSIDE OF SCOPE" then
        (if inputs.get BKey.severe_skin_failure_flag = some true then
          why ++ " The presentation suggests a severe non-burn skin process. Recommend urgent multidisciplinary evaluation per local protocol. Escalate appropriately. Burn Surgery can be re-consulted if burn features emerge."
        else
          why ++ " Burn Surgery involvement is not clearly indicated at this time. Recommend evaluation by an alternate appropriate service per local protocol. Re-consult Burn Surgery if burn-consistent features develop.")
        ++ (" Missing elements: " ++ (joinSemis (missing.take 4) ++ "."))
      else
        ("Recommend Burn Surgery consultation to assist with depth/TBSA assessment and determine need for burn-center evaluation or transfer. Rationale: " ++ why)
        ++ (" Missing elements being obtained: " ++ (joinSemis (missing.take 4) ++ ".")) := by
  simp only [generate_message_v5]
  rw [if_neg hne, if_neg hje, if_neg hje]

lemma bm_nil_eq (tier why : String) :
    build_message [] tier why [] = "Recommend: " ++ tier ++ (". Rationale: " ++ why) :=
  rfl

lemma bm_cons_eq (tier why : String) (missing : List String) (hne : missing ≠ [])
    (hje : joinSemis (missing.take 6) ≠ "") :
    build_message [] tier why missing =
      ("Recommend: " ++ tier ++ (". Rationale: " ++ why)) ++
        ("\n\nMissing items to make consult higher-yield: " ++
          (joinSemis (missing.take 6) ++ ".")) := by
  have h1 : build_message [] tier why missing =
      if (if missing = [] then "" else joinSemis (missing.take 6)) = "" then
        "Recommend: " ++ tier ++ (". Rationale: " ++ why)
      else
        ("Recommend: " ++ tier ++ (". Rationale: " ++ why)) ++
          ("\n\nMissing items to make consult higher-yield: " ++
            ((if missing = [] then "" else joinSemis (missing.take 6)) ++ ".")) := rfl
  rw [h1, if_neg hne, if_neg hje]

/-- Counterexample to claim C8: on the appendicitis pathway (empty details,
empty inputs) the missing list is non-empty, yet the composed message contains
no literal `Missing elements` sentence — its missing sentence is worded
`Missing items to make consult higher-yield`. -/
theorem C8_counterexample :
    (appPipeline appNone []).missing ≠ [] ∧
    ¬ strContains (appPipeline appNone []).msg "Missing elements" := by
  with_unfolding_all decide

/-- Amended C8: the burn message contains a `Missing elements` sentence iff
the evaluator's missing list is non-empty, and the sentence lists exactly the
first 4 missing labels joined by `; ` (cap 4, within the spec's 4–6 band).
The appendicitis message's missing sentence is worded
`Missing items to make consult higher-yield` and, for an empty details
record, appears (as the message's suffix, listing the first 6 labels joined
by `; `) iff the missing list is non-empty (cap 6, also within 4–6);
free-text details could independently contain the phrase, so the
empty-details form is the faithful statement of the iff. -/
theorem C8_amended :
    (∀ (bi : BurnInputs) (details : Details),
      (strContains (burnPipeline bi details).msg "Missing elements" ↔
        (burnPipeline bi details).r.missing_items ≠ []) ∧
      ((burnPipeline bi details).r.missing_items ≠ [] →
        ∃ core tag,
          (tag = " Missing elements: " ∨ tag = " Missing elements being obtained: ") ∧
          (burnPipeline bi details).msg =
            core ++ (tag ++
              (joinSemis ((burnPipeline bi details).r.missing_items.take 4) ++ ".")))) ∧
    (∀ ai : AppInputs,
      (strContains (appPipeline ai []).msg "Missing items to make consult higher-yield" ↔
        (appPipeline ai []).missing ≠ []) ∧
      ((appPipeline ai []).missing ≠ [] →
        ("\n\nMissing items to make consult higher-yield: " ++
            (joinSemis ((appPipeline ai []).missing.take 6) ++ ".")).data <:+
          (appPipeline ai []).msg.data)) := by
  constructor
  · intro bi details
    have hmsg : (burnPipeline bi details).msg =
        generate_message_v5 (inputs_for_logic bi details)
          (scope_triage_v2 (inputs_for_logic bi details)).1
          (scope_triage_v2 (inputs_for_logic bi details)).2
          (burn_consult_readiness_v2 bi).missing_items := rfl
    have hmi : (burn_consult_readiness_v2 bi).missing_items =
        ((burnRequiredKeys bi.mechanism_type).filter
          (fun k => !decide (bi.get k = some true))).map burnLabel :=
      filterMap_CHECKLIST _
    have hlab : ∀ s ∈ (burn_consult_readiness_v2 bi).missing_items, s ≠ "" := by
      intro s hs
      rw [hmi] at hs
      obtain ⟨k, -, rfl⟩ := List.mem_map.mp hs
      exact burnLabel_ne_empty k
    by_cases hm : (burn_consult_readiness_v2 bi).missing_items = []
    · have hnc : ¬ strContains (burnPipeline bi details).msg "Missing elements" := by
        rw [hmsg, hm, gm5_nil_eq]
        rcases scopeCasesB2 (inputs_for_logic bi details) with ⟨h1, h2⟩ | ⟨h1, h2⟩
        · rw [h1, if_neg (by decide : ¬ ("WITHIN SCOPE" : String) = "OUTSIDE OF SCOPE")]
          rcases h2 with h2 | h2 <;> rw [h2] <;> decide
        · rw [h1, if_pos rfl, h2]
          by_cases hsev : (inputs_for_logic bi details).get
              BKey.severe_skin_failure_flag = some true
          · rw [if_pos hsev]
            decide
          · rw [if_neg hsev]
            decide
      exact ⟨⟨fun hc => absurd hc hnc, fun hne => absurd hm hne⟩,
        fun hne => absurd hm hne⟩
    · have hje : joinSemis ((burn_consult_readiness_v2 bi).missing_items.take 4) ≠ "" :=
        joinSemis_ne_empty _ (take_succ_ne_nil _ hm 3)
          (fun s hs => hlab s (List.take_subset _ _ hs))
      have hmsg2 := hmsg.trans (gm5_cons_eq _ _ _ _ hm hje)
      rcases scopeCasesB2 (inputs_for_logic bi details) with ⟨h1, -⟩ | ⟨h1, -⟩
      · rw [h1, if_neg (by decide : ¬ ("WITHIN SCOPE" : String) = "OUTSIDE OF SCOPE")]
          at hmsg2
        refine ⟨⟨fun _ => hm, fun _ => ?_⟩, fun _ => ?_⟩
        · rw [hmsg2]
          exact contains_of_tagged _ _ _ _ (by decide)
        · exact ⟨_, " Missing elements being obtained: ", Or.inr rfl, hmsg2⟩
      · rw [h1, if_pos rfl] at hmsg2
        refine ⟨⟨fun _ => hm, fun _ => ?_⟩, fun _ => ?_⟩
        · rw [hmsg2]
          exact contains_of_tagged _ _ _ _ (by decide)
        · exact ⟨_, " Missing elements: ", Or.inl rfl, hmsg2⟩
  · intro ai
    have hmsg : (appPipeline ai []).msg =
        build_message []
          (recommendation_tier ai (compute_readiness ai).1 (triage_scope ai).1)
          (triage_scope ai).2 (compute_readiness ai).2 := rfl
    by_cases hm : (compute_readiness ai).2 = []
    · have hnc : ¬ strContains (appPipeline ai []).msg
          "Missing items to make consult higher-yield" := by
        rw [hmsg, hm, bm_nil_eq]
        rcases appTierCases ai (compute_readiness ai).1 (triage_scope ai).1 with
          h | h | h | h | h | h <;>
          rcases appScopeCases2 ai with g | g | g | g <;> rw [h, g] <;> decide
      exact ⟨⟨fun hc => absurd hc hnc, fun hne => absurd hm hne⟩,
        fun hne => absurd hm hne⟩
    · have hlab : ∀ s ∈ (compute_readiness ai).2, s ≠ "" := by
        intro s hs
        have hs2 : s ∈ (appRequired.filter
            fun k => !decide (ai.get k = some true)).map appLabels := hs
        obtain ⟨k, -, rfl⟩ := List.mem_map.mp hs2
        exact appLabels_ne_empty k
      have hje : joinSemis ((compute_readiness ai).2.take 6) ≠ "" :=
        joinSemis_ne_empty _ (take_succ_ne_nil _ hm 5)
          (fun s hs => hlab s (List.take_subset _ _ hs))
      have hmsg2 := hmsg.trans (bm_cons_eq _ _ _ hm hje)
      refine ⟨⟨fun _ => hm, fun _ => ?_⟩, fun _ => ?_⟩
      · rw [hmsg2]
        exact contains_of_tagged _ _ _ _ (by decide)
      · rw [hmsg2]
        exact suffix_of_append _ _

/-- Witness for C8_amended: on the empty records both messages carry their
missing sentence. -/
theorem C8_amended_witness :
    strContains (burnPipeline burnNone []).msg "Missing elements" ∧
    strContains (appPipeline appNone []).msg "Missing items to make consult higher-yield" :=
  ⟨(C8_amended.1 burnNone []).1.mpr (by with_unfolding_all decide),
   (C8_amended.2 appNone).1.mpr (by with_unfolding_all decide)⟩
